import Mathlib

/-!
# Shallow embedding of the fingerprint-localization repository

Source: `fpLocalize.py` (class `FingerprintGenerator`) and `fpParse.py`
(`savePickledFingerprints` / `loadPickledFingerprints`), a Python 2 code base.

Modelling conventions:
* a Python dict of beacon RSSI readings becomes an association list with
  distinct keys in insertion order (`Obs`);
* Python exceptions become `Except String`;
* the value `None` of `self._beacons` becomes `Option.none`;
* Python's `list(set(mylist))` returns the distinct elements in an
  unspecified order; it is modelled by `List.dedup`, one representative
  order with the same element set and no duplicates;
* Python's `for x in lst: ... lst.remove(x)` iterates by index over the
  mutating list; `pyRemoveLoop` reproduces that semantics exactly
  (including the element skip that follows each removal).
-/

/-- Beacon identifiers are strings (hardware addresses). -/
abbrev Beacon := String

/-- A Python RSSI observation dict `{'addr': RSSI, ...}`: an association
list from beacon identifier to RSSI value, keys distinct, insertion order. -/
abbrev Obs := List (Beacon × Int)

/-- `observation.keys()`: the keys in order. -/
def Obs.keys (o : Obs) : List Beacon := o.map Prod.fst

/-- Python `beacon in observation` membership test on a dict. -/
def Obs.contains (o : Obs) (b : Beacon) : Bool := (List.lookup b o).isSome

/-- Python `observation[beacon]` with a default: the dict lookup used by
`transform` after its `in` check succeeds, else the undetected value. -/
def pyDictGet (o : Obs) (b : Beacon) (default : Int) : Int :=
  match List.lookup b o with
  | some v => v
  | none => default

/-- `_make_unique(mylist) = list(set(mylist))` from fpLocalize.py line 9:
the distinct elements of the list (Python's set order is unspecified;
`List.dedup` is one representative order). -/
def makeUnique (l : List Beacon) : List Beacon := l.dedup

/-- State of a `FingerprintGenerator` instance: the attributes assigned by
`__init__` and mutated by `fit` (fpLocalize.py lines 25-111). `_beacons`
is `none` exactly when the Python attribute holds `None`. -/
structure FingerprintGenerator where
  mk ::
  method : String
  beacons : Option (List Beacon)
  undetected_value : Int
deriving Repr, DecidableEq

/-- `_set_method` (fpLocalize.py lines 93-96): validate the method string,
raising on anything outside the three known policies. -/
def setMethod (method : String) : Except String String :=
  if method = "fixed" ∨ method = "always_visible" ∨ method = "all" then
    Except.ok method
  else
    Except.error ("Unknown fit method: " ++ method ++ "!")

/-- Python truthiness of the `beacons` argument: `not beacons` is true for
`None` and for the empty list. -/
def pyFalsyBeacons : Option (List Beacon) → Bool
  | none => true
  | some l => l.isEmpty

/-- `FingerprintGenerator.__init__` (fpLocalize.py lines 25-39): reject
`fixed` with a falsy beacon list, validate the method, store the attributes.
The beacon list is stored exactly as supplied. -/
def FingerprintGenerator.init (method : String) (undetected_value : Int)
    (beacons : Option (List Beacon)) : Except String FingerprintGenerator :=
  if method = "fixed" ∧ pyFalsyBeacons beacons = true then
    Except.error "Beacons have to be provided when using a fixed set of beacons!"
  else
    match setMethod method with
    | Except.ok m => Except.ok ⟨m, beacons, undetected_value⟩
    | Except.error e => Except.error e

/-- The fingerprint vector built for one observation by the inner loop of
`transform` (fpLocalize.py lines 85-89): one entry per beacon of the
beacon set, the observed RSSI when present, else the undetected value. -/
def fingerprintOf (beacons : List Beacon) (undetected : Int) (o : Obs) : List Int :=
  beacons.map (fun b => pyDictGet o b undetected)

/-- `FingerprintGenerator.transform` (fpLocalize.py lines 69-90). When
`self._beacons` is `None`, the Python inner loop `for beacon in
self._beacons` raises a `TypeError` as soon as the first observation is
processed; on an empty observation list the loops never run and `[]` is
returned. -/
def FingerprintGenerator.transform (g : FingerprintGenerator) (rssi : List Obs) :
    Except String (List (List Int)) :=
  match g.beacons with
  | none =>
    match rssi with
    | [] => Except.ok []
    | _ :: _ => Except.error "TypeError: NoneType object is not iterable"
  | some bs => Except.ok (rssi.map (fun o => fingerprintOf bs g.undetected_value o))

/-- Python 2 `for beacon in beacons: if beacon not in observation:
beacons.remove(beacon)` (fpLocalize.py lines 101-103). The for-iterator
reads the list by index `j`; a removal shifts later elements down while the
iterator still advances, so the element after a removed one is skipped.
`fuel` only bounds the recursion; since `j` grows every step and the list
never grows, `initial length + 1` fuel is never exhausted before the index
guard exits. -/
def pyRemoveLoop (inObs : Beacon → Bool) : Nat → List Beacon → Nat → List Beacon
  | 0, lst, _ => lst
  | fuel + 1, lst, j =>
    if h : j < lst.length then
      if inObs (lst.get ⟨j, h⟩) then
        pyRemoveLoop inObs fuel lst (j + 1)
      else
        pyRemoveLoop inObs fuel (lst.erase (lst.get ⟨j, h⟩)) (j + 1)
    else lst

/-- One outer-loop iteration of `_fit_always_visible`: run the mutating
inner loop of fpLocalize.py lines 101-103 against one observation. -/
def pyRemoveMissing (o : Obs) (beacons : List Beacon) : List Beacon :=
  pyRemoveLoop (fun b => Obs.contains o b) (beacons.length + 1) beacons 0

/-- `_fit_always_visible` (fpLocalize.py lines 98-104): start from the keys
of the first observation (`rssi[0]` raises IndexError on an empty list),
run the remove-while-iterating loop over every observation, deduplicate. -/
def fitAlwaysVisible (rssi : List Obs) : Except String (List Beacon) :=
  match rssi with
  | [] => Except.error "IndexError: list index out of range"
  | o0 :: _ =>
    Except.ok (makeUnique (rssi.foldl (fun bs o => pyRemoveMissing o bs) (Obs.keys o0)))

/-- `_fit_all` (fpLocalize.py lines 106-111): append every key of every
observation, then deduplicate. -/
def fitAll (rssi : List Obs) : List Beacon :=
  makeUnique (rssi.foldl (fun acc o => acc ++ Obs.keys o) [])

/-- `FingerprintGenerator.fit` (fpLocalize.py lines 42-66): a truthy
`method` argument (a non-empty string) re-runs `_set_method`; then the
current method dispatches. `fixed` is a no-op; `always_visible` and `all`
replace `_beacons`. -/
def FingerprintGenerator.fit (g : FingerprintGenerator) (rssi : List Obs)
    (method : Option String) : Except String FingerprintGenerator :=
  match (match method with
         | some m =>
           if m = "" then Except.ok g
           else
             match setMethod m with
             | Except.ok m2 => Except.ok { g with method := m2 }
             | Except.error e => Except.error e
         | none => Except.ok g) with
  | Except.error e => Except.error e
  | Except.ok g2 =>
    if g2.method = "fixed" then Except.ok g2
    else if g2.method = "always_visible" then
      match fitAlwaysVisible rssi with
      | Except.ok bs => Except.ok { g2 with beacons := some bs }
      | Except.error e => Except.error e
    else if g2.method = "all" then Except.ok { g2 with beacons := some (fitAll rssi) }
    else Except.error "Invalid _method!"

/-- Reference definition taken from the specification words, for comparison
with `fitAlwaysVisible`: the beacons present in every observation, i.e. the
keys of the first observation filtered to those contained in all
observations (the set intersection, in first-observation key order). -/
def specAlwaysVisible (rssi : List Obs) : List Beacon :=
  match rssi with
  | [] => []
  | o0 :: _ => (Obs.keys o0).filter (fun b => rssi.all (fun o => Obs.contains o b))

/-- The serialized record written by `savePickledFingerprints`
(fpParse.py lines 9-21): a dict with a `fingerprints` entry and a `label`
entry that is Python `None` when no label argument was given. The pickle
byte layer is modelled as the stored record itself (pickle's contract is
that `load` after `dump` returns an equal object). -/
structure PickledFile (α β : Type) where
  fingerprints : α
  label : Option β
deriving Repr, DecidableEq

/-- `savePickledFingerprints(filename, fingerprints, label=None)`
(fpParse.py lines 9-21): dump the two-field record; the label argument
defaults to `None` (`Option.none`). -/
def savePickledFingerprints (fingerprints : α) (label : Option β) : PickledFile α β :=
  ⟨fingerprints, label⟩

/-- `loadPickledFingerprints(filename)` (fpParse.py lines 23-31): read the
record back and return the pair `(data['fingerprints'], data['label'])`. -/
def loadPickledFingerprints (f : PickledFile α β) : α × Option β :=
  (f.fingerprints, f.label)

/-- The example observation list used throughout the spec and the code's
own `_fingerprint_example` (fpLocalize.py lines 172-183):
`[{A:-10,B:-20,C:-30}, {B:-20,C:-30,D:-40}]`. -/
def exampleObs : List Obs :=
  [[("A", -10), ("B", -20), ("C", -30)], [("B", -20), ("C", -30), ("D", -40)]]

/-- C1: with an established beacon set, `transform` returns one vector per
observation, each of length equal to the beacon-set length, whose position
`i` holds the observation value at beacon `i` when present and the
configured undetected value otherwise; and on the documented `fixed`
example with beacons A,B,C and undetected value -99 the output is exactly
`[[-10,-20,-30],[-99,-20,-30]]`. -/
theorem C1_transform_spec (m : String) (bs : List Beacon) (u : Int) (rssi : List Obs) :
    FingerprintGenerator.transform ⟨m, some bs, u⟩ rssi
        = Except.ok (rssi.map (fun o => fingerprintOf bs u o))
    ∧ (rssi.map (fun o => fingerprintOf bs u o)).length = rssi.length
    ∧ (∀ o : Obs, (fingerprintOf bs u o).length = bs.length)
    ∧ (∀ (o : Obs) (i : Nat), (fingerprintOf bs u o)[i]?
        = (bs[i]?).map (fun b => pyDictGet o b u))
    ∧ FingerprintGenerator.transform ⟨"fixed", some ["A", "B", "C"], -99⟩ exampleObs
        = Except.ok [[-10, -20, -30], [-99, -20, -30]] := by
  refine ⟨rfl, List.length_map _ _, fun o => List.length_map _ _, fun o i => ?_, rfl⟩
  simp [fingerprintOf, List.getElem?_map]

/-- C2 (code bug): on the fit input `[{A:-10,B:-20}, {C:-30}]` under the
`always_visible` policy the code yields the beacon set `["B"]`, although
beacon B is not contained in the second observation and the specified set
intersection of the key sets is empty — the in-place removal of A during
iteration skips B. On the documented example input the result `["B","C"]`
does coincide with the intersection. -/
theorem C2_code_behavior :
    FingerprintGenerator.fit ⟨"always_visible", none, -100⟩
        [[("A", -10), ("B", -20)], [("C", -30)]] none
      = Except.ok ⟨"always_visible", some ["B"], -100⟩
    ∧ specAlwaysVisible [[("A", -10), ("B", -20)], [("C", -30)]] = []
    ∧ Obs.contains [("C", -30)] "B" = false
    ∧ FingerprintGenerator.fit ⟨"always_visible", none, -100⟩ exampleObs none
      = Except.ok ⟨"always_visible", some ["B", "C"], -100⟩ := by
  refine ⟨rfl, rfl, rfl, rfl⟩

/-- C4: constructing with policy `fixed` and no beacon list (or an empty
one) raises the configuration error, so no instance is produced, while a
non-empty beacon list yields a usable instance holding that list. -/
theorem C4_fixed_requires_beacons (u : Int) (b : Beacon) (bs : List Beacon) :
    FingerprintGenerator.init "fixed" u none
      = Except.error "Beacons have to be provided when using a fixed set of beacons!"
    ∧ FingerprintGenerator.init "fixed" u (some [])
      = Except.error "Beacons have to be provided when using a fixed set of beacons!"
    ∧ FingerprintGenerator.init "fixed" u (some (b :: bs))
      = Except.ok ⟨"fixed", some (b :: bs), u⟩ := by
  refine ⟨rfl, rfl, ?_⟩
  simp [FingerprintGenerator.init, pyFalsyBeacons, setMethod]

/-- C5 (counterexample): a generator constructed under `always_visible`
with no beacons holds `_beacons = None`; `transform` on the one-observation
list `[{A:-10}]` does not return the empty vector `[[]]` — iterating over
`None` raises a `TypeError`. -/
theorem C5_counterexample :
    FingerprintGenerator.transform ⟨"always_visible", none, -100⟩ [[("A", -10)]]
        ≠ Except.ok [[]]
    ∧ FingerprintGenerator.transform ⟨"always_visible", none, -100⟩ [[("A", -10)]]
        = Except.error "TypeError: NoneType object is not iterable" := by
  constructor
  · intro h
    exact Except.noConfusion h
  · rfl

/-- C5 (amended): before a beacon set is established (`_beacons = None`),
`transform` raises a `TypeError` on every non-empty observation list, and
returns `[]` (no vectors at all, not empty vectors per observation) only on
the empty observation list. -/
theorem C5_transform_unfitted (m : String) (u : Int) (o : Obs) (rest : List Obs) :
    FingerprintGenerator.transform ⟨m, none, u⟩ [] = Except.ok []
    ∧ FingerprintGenerator.transform ⟨m, none, u⟩ (o :: rest)
        = Except.error "TypeError: NoneType object is not iterable" := by
  exact ⟨rfl, rfl⟩

/-- C7 (counterexample): construction under the `fixed` policy stores the
supplied beacon list unchanged, so supplying `["A","A"]` establishes a
beacon set with a duplicate identifier. -/
theorem C7_counterexample :
    FingerprintGenerator.init "fixed" (-100) (some ["A", "A"])
        = Except.ok ⟨"fixed", some ["A", "A"], -100⟩
    ∧ ¬ (["A", "A"] : List Beacon).Nodup := by
  constructor
  · rfl
  · intro h
    simp at h

/-- C7 (amended): the beacon sets established by `fit` are duplicate-free —
`_make_unique` always returns a duplicate-free list, the `all` policy
result is duplicate-free, and any successful `always_visible` result is
duplicate-free; only a user-supplied `fixed` list is stored as-is and may
contain duplicates. -/
theorem C7_fit_nodup (l : List Beacon) (rssi rssi2 : List Obs) (bs : List Beacon)
    (h : fitAlwaysVisible rssi2 = Except.ok bs) :
    (makeUnique l).Nodup ∧ (fitAll rssi).Nodup ∧ bs.Nodup := by
  refine ⟨List.nodup_dedup l, List.nodup_dedup _, ?_⟩
  cases rssi2 with
  | nil => exact Except.noConfusion h
  | cons o0 rest =>
    have hbs : bs = makeUnique (((o0 :: rest).foldl
        (fun c o => pyRemoveMissing o c) (Obs.keys o0))) := by
      have := h
      simp [fitAlwaysVisible] at this
      exact this.symm
    rw [hbs]
    exact List.nodup_dedup _

/-- Witness for C7_fit_nodup at the concrete input `[{A:-10}]`. -/
theorem C7_fit_nodup_witness :
    (makeUnique (["A", "A"] : List Beacon)).Nodup
    ∧ (fitAll [[("A", -10)]]).Nodup
    ∧ (["A"] : List Beacon).Nodup :=
  C7_fit_nodup ["A", "A"] [[("A", -10)]] [[("A", -10)]] ["A"] rfl

/-- C8: loading the record produced by saving fingerprints `F` and label
`L` returns exactly `(F, L)`, for `L` a label list, the empty list, or
absent (`none`). -/
theorem C8_roundtrip (α β : Type) (F : α) (L : Option β) :
    loadPickledFingerprints (savePickledFingerprints F L) = (F, L) := rfl

/-- C9: a generator constructed under `always_visible` or `all` with no
beacons (so `_beacons = None`) accepts `fit(rssi, method='fixed')` without
any configuration error: the stored method becomes `fixed` permanently and
the beacon set is not updated (it stays `None`), so the constructor-time
non-empty-beacons requirement of the `fixed` policy is not enforced on the
fit-time policy override. -/
theorem C9_fit_method_override (m : String) (u : Int) (rssi : List Obs)
    (hm : m = "always_visible" ∨ m = "all") :
    FingerprintGenerator.init m u none = Except.ok ⟨m, none, u⟩
    ∧ FingerprintGenerator.fit ⟨m, none, u⟩ rssi (some "fixed")
        = Except.ok ⟨"fixed", none, u⟩ := by
  rcases hm with hm | hm <;> subst hm <;> exact ⟨rfl, rfl⟩

/-- Witness for C9_fit_method_override: the `always_visible` instance with
undetected value -100, fit on the empty observation list. -/
theorem C9_fit_method_override_witness :
    FingerprintGenerator.init "always_visible" (-100) none
        = Except.ok ⟨"always_visible", none, -100⟩
    ∧ FingerprintGenerator.fit ⟨"always_visible", none, -100⟩ [] (some "fixed")
        = Except.ok ⟨"fixed", none, -100⟩ :=
  C9_fit_method_override "always_visible" (-100) [] (Or.inl rfl)

/-- C10: saving without a label argument stores Python `None` in the
record's label field, and loading returns `none` as the label component —
not an empty list. -/
theorem C10_default_label (α β : Type) (F : α) :
    (savePickledFingerprints F (none : Option (List β))).label = none
    ∧ loadPickledFingerprints (savePickledFingerprints F (none : Option (List β)))
        = (F, none)
    ∧ (loadPickledFingerprints (savePickledFingerprints F (none : Option (List β)))).2
        ≠ some [] := by
  refine ⟨rfl, rfl, ?_⟩
  intro h
  exact Option.noConfusion h
